import Mathlib

/-!
# MLU memory backend (`src/mlu_memory.c`)

A shallow embedding of the accelerator memory backend: device initialisation,
buffer allocation and release, and the copy entries.  The vendor runtime the
file calls into is an explicit parameter (`Runtime`), every call into it is
recorded in a trace, and what the included headers provide is a second
parameter (`Headers`).
-/

namespace MluMemory

/-! ## Machine arithmetic used by the size computation -/

/-- Modulus of `uint64_t` / `size_t` arithmetic. -/
def U64 : Nat := 2 ^ 64

/-- The constant `#define ACCEL_PAGE_SIZE (64 * 1024)`, an `int` expression. -/
def ACCEL_PAGE_SIZE : Int := 64 * 1024

/-- Bitwise complement `~x` of a signed `int`. -/
def int_not (x : Int) : Int := -x - 1

/-- Conversion of an `int` operand to `uint64_t` (usual arithmetic conversions). -/
def to_u64 (x : Int) : Nat := (x % (U64 : Int)).toNat

/-- Wrapping `uint64_t` addition. -/
def u64_add (a b : Nat) : Nat := (a + b) % U64

/-- Wrapping `uint64_t` subtraction. -/
def u64_sub (a b : Nat) : Nat := (a + U64 - b % U64) % U64

/-- Bitwise and of two `uint64_t` values. -/
def u64_and (a b : Nat) : Nat := a &&& b

/-- The initialiser of `buf_size` in `mlu_memory_allocate_buffer`:
`(size + ACCEL_PAGE_SIZE - 1) & ~(ACCEL_PAGE_SIZE - 1)`, evaluated left to right in
`uint64_t`, the `int` operands being converted to `uint64_t`. -/
def buf_size (size : Nat) : Nat :=
  u64_and (u64_sub (u64_add size (to_u64 ACCEL_PAGE_SIZE)) (to_u64 1))
    (to_u64 (int_not (ACCEL_PAGE_SIZE - 1)))

/-! ## What the headers provide -/

/-- The device attributes the file queries (`CN_DEVICE_ATTRIBUTE_*`). -/
inductive CNdevice_attribute
  | CN_DEVICE_ATTRIBUTE_PCI_BUS_ID
  | CN_DEVICE_ATTRIBUTE_PCI_DEVICE_ID
  | CN_DEVICE_ATTRIBUTE_INTEGRATED
  deriving DecidableEq, Repr

/-- Constants, macros and identifiers that `mlu_memory.c` uses and does not declare itself;
they come from `perftest_parameters.h`, `mlu_memory.h` and the vendor headers.
`assert_aborts` says whether the `ASSERT` macro ends the process when its condition is false,
`HAVE_MLU_DMABUF` is the compile-time switch, and `cn_device_id` is the identifier read by
the range check of `init_gpu` (the function declares `mlu_device_id` only). -/
structure Headers where
  SUCCESS : Int
  FAILURE : Int
  CN_SUCCESS : Int
  CN_CTX_MAP_HOST : Int
  assert_aborts : Bool
  HAVE_MLU_DMABUF : Bool
  cn_device_id : Int

/-! ## The vendor runtime and the trace of calls -/

/-- The entry points of the vendor runtime (and `getpid`) that the file calls. -/
inductive VendorFn
  | cnInit
  | cnDeviceGetCount
  | cnDeviceGet
  | cnDeviceGetAttribute
  | cnDeviceGetName
  | cnCtxCreate
  | cnCtxSetCurrent
  | cnCtxDestroy
  | cnDeviceGetByPCIBusId
  | cnMallocHost
  | cnMalloc
  | cnFreeHost
  | cnFree
  | cnMemcpy
  | cuMemcpyDtoD
  deriving DecidableEq, Repr

/-- A value passed to or produced by a call, or printed. `ref` is the address of a named
object of the caller (printed with `%p`). -/
inductive Arg
  | int (i : Int)
  | nat (n : Nat)
  | str (s : String)
  | attr (a : CNdevice_attribute)
  | ref (name : String)
  deriving DecidableEq, Repr

/-- Output streams. -/
inductive Stream
  | stdout
  | stderr
  deriving DecidableEq, Repr

/-- One observable step: a vendor call with its arguments, return code and the values its
out-parameters hold afterwards; a formatted print; or a failed `ASSERT`. -/
inductive Event
  | call (fn : VendorFn) (ins : List Arg) (res : Int) (outs : List Arg)
  | print (stream : Stream) (fmt : String) (args : List Arg)
  | assert_failed
  deriving DecidableEq, Repr

/-- The vendor runtime over a state `σ`. Every entry returns its result code; an entry with
an out-parameter also returns the value that out-parameter holds after the call. -/
structure Runtime (σ : Type) where
  getpid : σ → Int
  cnInit : Int → σ → (Int × Unit) × σ
  cnDeviceGetCount : σ → (Int × Int) × σ
  cnDeviceGet : Int → σ → (Int × Int) × σ
  cnDeviceGetAttribute : CNdevice_attribute → Int → σ → (Int × Int) × σ
  cnDeviceGetName : Nat → Int → σ → (Int × String) × σ
  cnCtxCreate : Int → Int → σ → (Int × Nat) × σ
  cnCtxSetCurrent : Nat → σ → (Int × Unit) × σ
  cnCtxDestroy : Nat → σ → (Int × Unit) × σ
  cnDeviceGetByPCIBusId : String → σ → (Int × Int) × σ
  cnMallocHost : Nat → σ → (Int × Nat) × σ
  cnMalloc : Nat → σ → (Int × Nat) × σ
  cnFreeHost : Nat → σ → (Int × Unit) × σ
  cnFree : Nat → σ → (Int × Unit) × σ
  cnMemcpy : Nat → Nat → Nat → σ → (Int × Unit) × σ
  cuMemcpyDtoD : Nat → Nat → Nat → σ → (Int × Unit) × σ

/-- How a function ends: it returns a value, or the process ended inside `ASSERT`. -/
inductive Outcome (α : Type)
  | ret (a : α)
  | aborted
  deriving DecidableEq, Repr

/-- Result of running a piece of code: its outcome, the vendor state afterwards and the
events it produced, oldest first. -/
structure Result (σ α : Type) where
  out : Outcome α
  vendor : σ
  trace : List Event

/-- Code that talks to the vendor runtime. -/
def Prog (σ α : Type) : Type := σ → Result σ α

/-- Return without any effect. -/
def Prog.pure {σ α : Type} (a : α) : Prog σ α := fun s => ⟨Outcome.ret a, s, []⟩

/-- Sequencing: the second part runs only if the first returned. -/
def Prog.bind {σ α β : Type} (p : Prog σ α) (f : α → Prog σ β) : Prog σ β := fun s =>
  match (p s).out with
  | Outcome.ret a => ⟨(f a (p s).vendor).out, (f a (p s).vendor).vendor,
      (p s).trace ++ (f a (p s).vendor).trace⟩
  | Outcome.aborted => ⟨Outcome.aborted, (p s).vendor, (p s).trace⟩

instance (σ : Type) : Monad (Prog σ) where
  pure := Prog.pure
  bind := Prog.bind

/-- Record one event. -/
def emit {σ : Type} (e : Event) : Prog σ Unit := fun s => ⟨Outcome.ret (), s, [e]⟩

/-- End the process. -/
def abort {σ α : Type} : Prog σ α := fun s => ⟨Outcome.aborted, s, []⟩

/-- The call `printf(fmt, args...)`. -/
def printf {σ : Type} (fmt : String) (args : List Arg) : Prog σ Unit :=
  emit (Event.print Stream.stdout fmt args)

/-- The call `fprintf(stderr, fmt, args...)`. -/
def fprintf_stderr {σ : Type} (fmt : String) (args : List Arg) : Prog σ Unit :=
  emit (Event.print Stream.stderr fmt args)

/-- A vendor call: run the entry, record it with its inputs, result code and outputs. -/
def vcall {σ β : Type} (fn : VendorFn) (ins : List Arg) (f : σ → (Int × β) × σ)
    (outs : β → List Arg) : Prog σ (Int × β) := fun s =>
  ⟨Outcome.ret (f s).1, (f s).2, [Event.call fn ins (f s).1.1 (outs (f s).1.2)]⟩

/-- The macro `ASSERT(cond)`. -/
def ASSERT {σ : Type} (k : Headers) (cond : Bool) : Prog σ Unit :=
  if cond then Prog.pure ()
  else Prog.bind (emit Event.assert_failed) (fun _ =>
    if k.assert_aborts then abort else Prog.pure ())

/-- The macro `CUCHECK(stmt)`: `CNresult result = (stmt); ASSERT(CN_SUCCESS == result);`.
The value is what the out-parameter of `stmt` holds afterwards. -/
def CUCHECK {σ β : Type} (k : Headers) (stmt : Prog σ (Int × β)) : Prog σ β :=
  Prog.bind stmt (fun r => Prog.bind (ASSERT k (decide (k.CN_SUCCESS = r.1))) (fun _ =>
    Prog.pure r.2))

section Calls
variable {σ : Type} (rt : Runtime σ)

def cnInit (flags : Int) : Prog σ (Int × Unit) :=
  vcall VendorFn.cnInit [Arg.int flags] (rt.cnInit flags) (fun _ => [])

def cnDeviceGetCount : Prog σ (Int × Int) :=
  vcall VendorFn.cnDeviceGetCount [] rt.cnDeviceGetCount (fun c => [Arg.int c])

def cnDeviceGet (ordinal : Int) : Prog σ (Int × Int) :=
  vcall VendorFn.cnDeviceGet [Arg.int ordinal] (rt.cnDeviceGet ordinal) (fun d => [Arg.int d])

def cnDeviceGetAttribute (a : CNdevice_attribute) (dev : Int) : Prog σ (Int × Int) :=
  vcall VendorFn.cnDeviceGetAttribute [Arg.attr a, Arg.int dev] (rt.cnDeviceGetAttribute a dev)
    (fun v => [Arg.int v])

def cnDeviceGetName (len : Nat) (dev : Int) : Prog σ (Int × String) :=
  vcall VendorFn.cnDeviceGetName [Arg.nat len, Arg.int dev] (rt.cnDeviceGetName len dev)
    (fun n => [Arg.str n])

def cnCtxCreate (flags : Int) (dev : Int) : Prog σ (Int × Nat) :=
  vcall VendorFn.cnCtxCreate [Arg.int flags, Arg.int dev] (rt.cnCtxCreate flags dev)
    (fun c => [Arg.nat c])

def cnCtxSetCurrent (c : Nat) : Prog σ (Int × Unit) :=
  vcall VendorFn.cnCtxSetCurrent [Arg.nat c] (rt.cnCtxSetCurrent c) (fun _ => [])

def cnCtxDestroy (c : Nat) : Prog σ (Int × Unit) :=
  vcall VendorFn.cnCtxDestroy [Arg.nat c] (rt.cnCtxDestroy c) (fun _ => [])

def cnDeviceGetByPCIBusId (bus : String) : Prog σ (Int × Int) :=
  vcall VendorFn.cnDeviceGetByPCIBusId [Arg.str bus] (rt.cnDeviceGetByPCIBusId bus)
    (fun d => [Arg.int d])

def cnMallocHost (bytes : Nat) : Prog σ (Int × Nat) :=
  vcall VendorFn.cnMallocHost [Arg.nat bytes] (rt.cnMallocHost bytes) (fun a => [Arg.nat a])

def cnMalloc (bytes : Nat) : Prog σ (Int × Nat) :=
  vcall VendorFn.cnMalloc [Arg.nat bytes] (rt.cnMalloc bytes) (fun a => [Arg.nat a])

def cnFreeHost (addr : Nat) : Prog σ (Int × Unit) :=
  vcall VendorFn.cnFreeHost [Arg.nat addr] (rt.cnFreeHost addr) (fun _ => [])

def cnFree (addr : Nat) : Prog σ (Int × Unit) :=
  vcall VendorFn.cnFree [Arg.nat addr] (rt.cnFree addr) (fun _ => [])

def cnMemcpy (dest src size : Nat) : Prog σ (Int × Unit) :=
  vcall VendorFn.cnMemcpy [Arg.nat dest, Arg.nat src, Arg.nat size] (rt.cnMemcpy dest src size)
    (fun _ => [])

def cuMemcpyDtoD (dest src size : Nat) : Prog σ (Int × Unit) :=
  vcall VendorFn.cuMemcpyDtoD [Arg.nat dest, Arg.nat src, Arg.nat size]
    (rt.cuMemcpyDtoD dest src size) (fun _ => [])

/-- The call `getpid()`. -/
def getpid : Prog σ Int := fun s => ⟨Outcome.ret (rt.getpid s), s, []⟩

end Calls

/-! ## The backend -/

/-- Functions of type `int (*)(struct memory_ctx *)`. -/
inductive CtxFn
  | mlu_memory_init
  | mlu_memory_destroy
  deriving DecidableEq, Repr

/-- Functions with the signature of `allocate_buffer`. -/
inductive AllocFn
  | mlu_memory_allocate_buffer
  deriving DecidableEq, Repr

/-- Functions with the signature of `free_buffer`. -/
inductive FreeFn
  | mlu_memory_free_buffer
  deriving DecidableEq, Repr

/-- Functions of type `void *(*)(void *dest, const void *src, size_t size)`. -/
inductive CopyFn
  | mlu_memory_copy_host_buffer
  | mlu_memory_copy_buffer_to_buffer
  deriving DecidableEq, Repr

/-- The members of `struct memory_ctx` that `mlu_memory_create` assigns. -/
structure memory_ctx where
  init : CtxFn
  destroy : CtxFn
  allocate_buffer : AllocFn
  free_buffer : FreeFn
  copy_host_to_buffer : CopyFn
  copy_buffer_to_host : CopyFn
  copy_buffer_to_buffer : CopyFn
  deriving DecidableEq, Repr

/-- The record `struct mlu_memory_ctx`; `device_bus_id` is `none` for a null pointer. -/
structure mlu_memory_ctx where
  base : memory_ctx
  device_id : Int
  device_bus_id : Option String
  cnDevice : Int
  cnContext : Nat
  use_dmabuf : Bool
  deriving DecidableEq, Repr

/-- The members of `struct perftest_parameters` that `mlu_memory_create` reads. -/
structure perftest_parameters where
  mlu_device_id : Int
  mlu_device_bus_id : Option String
  use_mlu_dmabuf : Bool
  deriving DecidableEq, Repr

/-- The objects behind the pointer parameters of `mlu_memory_allocate_buffer`. -/
structure alloc_out where
  dmabuf_fd : Int
  dmabuf_offset : Nat
  addr : Nat
  can_init : Bool
  deriving DecidableEq, Repr

section Backend
variable {σ : Type} (k : Headers) (rt : Runtime σ)

/-- The listing loop of `init_gpu`, `for (index = 0; index < deviceCount; index++)`:
the first argument counts the iterations still to run, the second is `index`. -/
def list_devices : Nat → Int → Prog σ Unit
  | 0, _ => pure ()
  | n + 1, index => do
    let cn_device ← CUCHECK k (cnDeviceGet rt index)
    let bus ← cnDeviceGetAttribute rt CNdevice_attribute.CN_DEVICE_ATTRIBUTE_PCI_BUS_ID cn_device
    let dev ← cnDeviceGetAttribute rt CNdevice_attribute.CN_DEVICE_ATTRIBUTE_PCI_DEVICE_ID cn_device
    printf "MLU device %d: PCIe address is %02X:%02X\n"
      [Arg.int index, Arg.int (bus.2 % 2 ^ 32), Arg.int (dev.2 % 2 ^ 32)]
    list_devices n (index + 1)

/-- The function `init_gpu`. Returns the result code and the context as the function leaves it. -/
def init_gpu (ctx : mlu_memory_ctx) : Prog σ (Int × mlu_memory_ctx) := do
  let mlu_device_id := ctx.device_id
  printf "initializing MLU\n" []
  let error ← cnInit rt 0
  if error.1 ≠ k.CN_SUCCESS then
    printf "cnInit(0) returned %d\n" [Arg.int error.1]
    return (k.FAILURE, ctx)
  else
  let count ← cnDeviceGetCount rt
  let deviceCount := count.2
  if count.1 ≠ k.CN_SUCCESS then
    printf "cnDeviceGetCount() returned %d\n" [Arg.int count.1]
    return (k.FAILURE, ctx)
  else
  if deviceCount = 0 then
    printf "There are no available device(s) that support MLU\n" []
    return (k.FAILURE, ctx)
  else
  if k.cn_device_id ≥ deviceCount then
    fprintf_stderr "No such device ID (%d) exists in system\n" [Arg.int k.cn_device_id]
    return (k.FAILURE, ctx)
  else
  printf "Listing all MLU devices in system:\n" []
  list_devices k rt deviceCount.toNat 0
  printf "\nPicking device No. %d\n" [Arg.int mlu_device_id]
  let cnDevice ← CUCHECK k (cnDeviceGet rt mlu_device_id)
  let ctx := { ctx with cnDevice := cnDevice }
  let name ← CUCHECK k (cnDeviceGetName rt 128 mlu_device_id)
  let pid ← getpid rt
  printf "[pid = %d, dev = %d] device name = [%s]\n" [Arg.int pid, Arg.int ctx.cnDevice, Arg.str name]
  printf "creating MLU Ctx\n" []
  let created ← cnCtxCreate rt k.CN_CTX_MAP_HOST ctx.cnDevice
  let ctx := { ctx with cnContext := created.2 }
  if created.1 ≠ k.CN_SUCCESS then
    printf "cnCtxCreate() error=%d\n" [Arg.int created.1]
    return (k.FAILURE, ctx)
  else
  printf "making it the current MLU Ctx\n" []
  let error ← cnCtxSetCurrent rt ctx.cnContext
  if error.1 ≠ k.CN_SUCCESS then
    printf "cnCtxSetCurrent() error=%d\n" [Arg.int error.1]
    return (k.FAILURE, ctx)
  else
  return (k.SUCCESS, ctx)

/-- The function `free_gpu`. -/
def free_gpu (ctx : mlu_memory_ctx) : Prog σ Unit := do
  printf "destroying current MLU Ctx\n" []
  CUCHECK k (cnCtxDestroy rt ctx.cnContext)

/-- The bus-id block of `mlu_memory_init` (the body of `if (mlu_ctx->device_bus_id)`):
`none` when it falls through to `init_gpu`, `some code` when it returns `code`. -/
def mlu_memory_init_bus (mlu_ctx : mlu_memory_ctx) (bus : String) :
    Prog σ (Option Int × mlu_memory_ctx) := do
  printf "initializing MLU\n" []
  let error ← cnInit rt 0
  if error.1 ≠ k.CN_SUCCESS then
    printf "cnInit(0) returned %d\n" [Arg.int error.1]
    return (some k.FAILURE, mlu_ctx)
  else
  printf "Finding PCIe BUS %s\n" [Arg.str bus]
  let err ← cnDeviceGetByPCIBusId rt bus
  let mlu_ctx := { mlu_ctx with device_id := err.2 }
  if err.1 ≠ 0 then
    fprintf_stderr "cnDeviceGetByPCIBusId failed with error: %d; Failed to get PCI Bus ID (%s)\n"
      [Arg.int err.1, Arg.str bus]
    return (some k.FAILURE, mlu_ctx)
  else
  printf "Picking GPU number %d\n" [Arg.int mlu_ctx.device_id]
  return (none, mlu_ctx)

/-- The rest of `mlu_memory_init`, from `return_value = init_gpu(mlu_ctx)` on. -/
def mlu_memory_init_rest (mlu_ctx : mlu_memory_ctx) : Prog σ (Int × mlu_memory_ctx) := do
  let r ← init_gpu k rt mlu_ctx
  let return_value := r.1
  let mlu_ctx := r.2
  if return_value ≠ 0 then
    fprintf_stderr "Couldn\x27t init GPU context: %d\n" [Arg.int return_value]
    return (k.FAILURE, mlu_ctx)
  else
  let mlu_ctx := if k.HAVE_MLU_DMABUF then { mlu_ctx with use_dmabuf := false } else mlu_ctx
  return (k.SUCCESS, mlu_ctx)

/-- The function `mlu_memory_init`. -/
def mlu_memory_init (mlu_ctx : mlu_memory_ctx) : Prog σ (Int × mlu_memory_ctx) :=
  match mlu_ctx.device_bus_id with
  | some bus => do
    let b ← mlu_memory_init_bus k rt mlu_ctx bus
    match b.1 with
    | some code => return (code, b.2)
    | none => mlu_memory_init_rest k rt b.2
  | none => mlu_memory_init_rest k rt mlu_ctx

/-- The function `mlu_memory_destroy`; the context is released, so only the code is returned. -/
def mlu_memory_destroy (mlu_ctx : mlu_memory_ctx) : Prog σ Int := do
  free_gpu k rt mlu_ctx
  return k.SUCCESS

/-- The function `mlu_memory_allocate_buffer`. `mem` holds the objects behind `dmabuf_fd`,
`dmabuf_offset`, `addr` and `can_init` on entry; the result gives them on return. -/
def mlu_memory_allocate_buffer (mlu_ctx : mlu_memory_ctx) (alignment : Int) (size : Nat)
    (mem : alloc_out) : Prog σ (Int × mlu_memory_ctx × alloc_out) := do
  let buf_size := buf_size size
  let integrated ← cnDeviceGetAttribute rt CNdevice_attribute.CN_DEVICE_ATTRIBUTE_INTEGRATED
    mlu_ctx.cnDevice
  let mlu_device_integrated := integrated.2
  printf "MLU device integrated: %X\n" [Arg.int (mlu_device_integrated % 2 ^ 32)]
  if mlu_device_integrated = 1 then
    printf "cnMallocHost() of a %lu bytes GPU buffer\n" [Arg.nat size]
    let error ← cnMallocHost rt buf_size
    let mem := { mem with addr := error.2 }
    if error.1 ≠ k.CN_SUCCESS then
      printf "cnMallocHost error=%d\n" [Arg.int error.1]
      return (k.FAILURE, mlu_ctx, mem)
    else
    printf "allocated GPU buffer address at %p\n" [Arg.ref "addr"]
    let mem := { mem with can_init := false }
    return (k.SUCCESS, mlu_ctx, mem)
  else
    printf "cnMemAlloc() of a %lu bytes GPU buffer\n" [Arg.nat size]
    let error ← cnMalloc rt buf_size
    let d_A := error.2
    if error.1 ≠ k.CN_SUCCESS then
      printf "cnMemAlloc error=%d\n" [Arg.int error.1]
      return (k.FAILURE, mlu_ctx, mem)
    else
    printf "allocated GPU buffer address at %016llx pointer=%p\n" [Arg.nat d_A, Arg.nat d_A]
    let mem := { mem with addr := d_A }
    let mem := { mem with can_init := false }
    let mlu_ctx := if k.HAVE_MLU_DMABUF then { mlu_ctx with use_dmabuf := false } else mlu_ctx
    return (k.SUCCESS, mlu_ctx, mem)

/-- The function `mlu_memory_free_buffer`. -/
def mlu_memory_free_buffer (mlu_ctx : mlu_memory_ctx) (dmabuf_fd : Int) (addr : Nat)
    (size : Nat) : Prog σ Int := do
  let integrated ← cnDeviceGetAttribute rt CNdevice_attribute.CN_DEVICE_ATTRIBUTE_INTEGRATED
    mlu_ctx.cnDevice
  let mlu_device_integrated := integrated.2
  if mlu_device_integrated = 1 then
    printf "deallocating GPU buffer %p\n" [Arg.nat addr]
    let _ ← cnFreeHost rt addr
    return k.SUCCESS
  else
    let d_A := addr
    printf "deallocating GPU buffer %016llx\n" [Arg.nat d_A]
    let _ ← cnFree rt d_A
    return k.SUCCESS

/-- The function `mlu_memory_copy_host_buffer`. -/
def mlu_memory_copy_host_buffer (dest src size : Nat) : Prog σ Nat := do
  let _ ← cnMemcpy rt dest src size
  return dest

/-- The function `mlu_memory_copy_buffer_to_buffer`. -/
def mlu_memory_copy_buffer_to_buffer (dest src size : Nat) : Prog σ Nat := do
  let _ ← cuMemcpyDtoD rt dest src size
  return dest

/-- A call through a copy member of `struct memory_ctx`. -/
def call_copy (f : CopyFn) (dest src size : Nat) : Prog σ Nat :=
  match f with
  | CopyFn.mlu_memory_copy_host_buffer => mlu_memory_copy_host_buffer rt dest src size
  | CopyFn.mlu_memory_copy_buffer_to_buffer => mlu_memory_copy_buffer_to_buffer rt dest src size

end Backend

/-- The function `mlu_memory_supported`. -/
def mlu_memory_supported : Bool := true

/-- The function `mlu_memory_dmabuf_supported`, under either setting of `HAVE_MLU_DMABUF`. -/
def mlu_memory_dmabuf_supported (k : Headers) : Bool :=
  if k.HAVE_MLU_DMABUF then false else false

/-- The function `mlu_memory_create`. `fresh` is the content of the newly allocated record
before the assignments (`ALLOCATE` leaves it indeterminate). -/
def mlu_memory_create (params : perftest_parameters) (fresh : mlu_memory_ctx) : mlu_memory_ctx :=
  { fresh with
    base :=
      { init := CtxFn.mlu_memory_init
        destroy := CtxFn.mlu_memory_destroy
        allocate_buffer := AllocFn.mlu_memory_allocate_buffer
        free_buffer := FreeFn.mlu_memory_free_buffer
        copy_host_to_buffer := CopyFn.mlu_memory_copy_host_buffer
        copy_buffer_to_host := CopyFn.mlu_memory_copy_host_buffer
        copy_buffer_to_buffer := CopyFn.mlu_memory_copy_buffer_to_buffer }
    device_id := params.mlu_device_id
    device_bus_id := params.mlu_device_bus_id
    use_dmabuf := params.use_mlu_dmabuf }

/-! ## A concrete runtime for evaluation -/

/-- A runtime without state in which every call succeeds with code `0`: it reports `count`
devices, hands out the ordinal as device handle, reads every attribute as `attr`, and returns
`hnd` as context handle and as allocated address. -/
def const_runtime (count attr : Int) (hnd : Nat) : Runtime Unit where
  getpid := fun _ => 1
  cnInit := fun _ s => ((0, ()), s)
  cnDeviceGetCount := fun s => ((0, count), s)
  cnDeviceGet := fun i s => ((0, i), s)
  cnDeviceGetAttribute := fun _ _ s => ((0, attr), s)
  cnDeviceGetName := fun _ _ s => ((0, "MLU"), s)
  cnCtxCreate := fun _ _ s => ((0, hnd), s)
  cnCtxSetCurrent := fun _ s => ((0, ()), s)
  cnCtxDestroy := fun _ s => ((0, ()), s)
  cnDeviceGetByPCIBusId := fun _ s => ((0, 0), s)
  cnMallocHost := fun _ s => ((0, hnd), s)
  cnMalloc := fun _ s => ((0, hnd), s)
  cnFreeHost := fun _ s => ((0, ()), s)
  cnFree := fun _ s => ((0, ()), s)
  cnMemcpy := fun _ _ _ s => ((0, ()), s)
  cuMemcpyDtoD := fun _ _ _ s => ((0, ()), s)

/-- The values of `perftest_parameters.h` (`SUCCESS` 0, `FAILURE` 1), `CN_SUCCESS` 0, an
`ASSERT` that only prints, and `cn_device_id` as given. -/
def headers (cn_device_id : Int) (dmabuf : Bool) : Headers where
  SUCCESS := 0
  FAILURE := 1
  CN_SUCCESS := 0
  CN_CTX_MAP_HOST := 0
  assert_aborts := false
  HAVE_MLU_DMABUF := dmabuf
  cn_device_id := cn_device_id

/-- The context `mlu_memory_create` makes for device index 0, no bus id and no DMA-BUF, the
new record holding zeros before the assignments. -/
def ctx0 : mlu_memory_ctx :=
  mlu_memory_create ⟨0, none, false⟩
    ⟨⟨CtxFn.mlu_memory_init, CtxFn.mlu_memory_init, AllocFn.mlu_memory_allocate_buffer,
      FreeFn.mlu_memory_free_buffer, CopyFn.mlu_memory_copy_host_buffer,
      CopyFn.mlu_memory_copy_host_buffer, CopyFn.mlu_memory_copy_host_buffer⟩, 0, none, 0, 0, false⟩

/-! ## Reading a trace -/

/-- The vendor calls of a trace whose entry satisfies `p`, each with its arguments, in order. -/
def calls_of (p : VendorFn → Bool) : List Event → List (VendorFn × List Arg)
  | [] => []
  | Event.call fn ins _ _ :: t => if p fn then (fn, ins) :: calls_of p t else calls_of p t
  | Event.print _ _ _ :: t => calls_of p t
  | Event.assert_failed :: t => calls_of p t

/-- One vendor call as recorded in a trace: the entry, its arguments, its return code and
the values of its out-parameters after the call. -/
structure CallRecord where
  fn : VendorFn
  ins : List Arg
  res : Int
  outs : List Arg
  deriving DecidableEq, Repr

/-- The vendor calls of a trace whose entry satisfies `p`, each with its arguments, its
return code and the values of its out-parameters, in order. -/
def records_of (p : VendorFn → Bool) : List Event → List CallRecord
  | [] => []
  | Event.call fn ins res outs :: t =>
    if p fn then ⟨fn, ins, res, outs⟩ :: records_of p t else records_of p t
  | Event.print _ _ _ :: t => records_of p t
  | Event.assert_failed :: t => records_of p t

/-- The four steps of initialisation whose return code decides the result:
`cnInit`, `cnDeviceGetCount`, `cnCtxCreate` and `cnCtxSetCurrent`. -/
def is_init_step (fn : VendorFn) : Bool :=
  decide (fn = VendorFn.cnInit) || decide (fn = VendorFn.cnDeviceGetCount) ||
    decide (fn = VendorFn.cnCtxCreate) || decide (fn = VendorFn.cnCtxSetCurrent)

/-- The two context calls, `cnCtxCreate` and `cnCtxSetCurrent`. -/
def is_ctx_call (fn : VendorFn) : Bool :=
  decide (fn = VendorFn.cnCtxCreate) || decide (fn = VendorFn.cnCtxSetCurrent)

/-- The call `cnDeviceGet`. -/
def is_device_get (fn : VendorFn) : Bool := decide (fn = VendorFn.cnDeviceGet)

/-- The call `cnDeviceGetCount`. -/
def is_get_count (fn : VendorFn) : Bool := decide (fn = VendorFn.cnDeviceGetCount)

/-- The call `cnDeviceGetByPCIBusId`. -/
def is_bus_lookup (fn : VendorFn) : Bool := decide (fn = VendorFn.cnDeviceGetByPCIBusId)

/-- The two allocators. -/
def is_allocator (fn : VendorFn) : Bool :=
  decide (fn = VendorFn.cnMallocHost) || decide (fn = VendorFn.cnMalloc)

/-- The two release routines. -/
def is_release (fn : VendorFn) : Bool :=
  decide (fn = VendorFn.cnFreeHost) || decide (fn = VendorFn.cnFree)

/-- Every vendor call. -/
def any_call (_ : VendorFn) : Bool := true

/-- What the runtime answers to the query
`cnDeviceGetAttribute(&v, CN_DEVICE_ATTRIBUTE_INTEGRATED, dev)` in state `s`: the value `v`
read afterwards is the component `.1.2`, the state after the query is `.2`. -/
def read_integrated {σ : Type} (rt : Runtime σ) (dev : Int) (s : σ) : (Int × Int) × σ :=
  rt.cnDeviceGetAttribute CNdevice_attribute.CN_DEVICE_ATTRIBUTE_INTEGRATED dev s

/-- What the allocator selected by `mlu_memory_allocate_buffer` answers: `cnMallocHost` when
the integrated attribute reads 1, `cnMalloc` otherwise, called with the rounded size in the
state the attribute query leaves. -/
def selected_allocator {σ : Type} (rt : Runtime σ) (dev : Int) (size : Nat) (s : σ) :
    (Int × Nat) × σ :=
  if (read_integrated rt dev s).1.2 = 1 then
    rt.cnMallocHost (buf_size size) (read_integrated rt dev s).2
  else rt.cnMalloc (buf_size size) (read_integrated rt dev s).2

/-! ## Lemmas on the size computation -/

theorem to_u64_page : to_u64 ACCEL_PAGE_SIZE = 65536 := by decide

theorem to_u64_one : to_u64 1 = 1 := by decide

theorem to_u64_mask : to_u64 (int_not (ACCEL_PAGE_SIZE - 1)) = 2 ^ 64 - 65536 := by decide

theorem and_page_mask (x : Nat) (hx : x < 2 ^ 64) :
    x &&& (2 ^ 64 - 65536) = x / 65536 * 65536 := by
  apply Nat.eq_of_testBit_eq
  intro i
  have hm : (2 ^ 64 - 65536 : Nat) = (2 ^ 48 - 1) <<< 16 := by decide
  have hd : x / 65536 * 65536 = (x >>> 16) <<< 16 := by
    rw [Nat.shiftLeft_eq, Nat.shiftRight_eq_div_pow]
  rw [hm, hd, Nat.testBit_and, Nat.testBit_shiftLeft, Nat.testBit_shiftLeft,
    Nat.testBit_shiftRight, Nat.testBit_two_pow_sub_one]
  by_cases h16 : 16 ≤ i
  · by_cases h64 : i < 64
    · have h48 : i - 16 < 48 := by omega
      simp [h16, h48]
    · have hb : x.testBit i = false := by
        apply Nat.testBit_lt_two_pow
        calc x < 2 ^ 64 := hx
          _ ≤ 2 ^ i := Nat.pow_le_pow_right (by decide) (by omega)
      have e : 16 + (i - 16) = i := by omega
      simp [h16, e, hb]
  · simp [h16]

/-- The computed size is the wrapped sum with its low sixteen bits cleared. -/
theorem buf_size_eq (size : Nat) :
    buf_size size = (size + 65535) % 2 ^ 64 / 65536 * 65536 := by
  unfold buf_size u64_and u64_sub u64_add
  rw [to_u64_page, to_u64_one, to_u64_mask]
  have hU : U64 = 2 ^ 64 := rfl
  rw [hU]
  have e : ((size + 65536) % 2 ^ 64 + 2 ^ 64 - 1 % 2 ^ 64) % 2 ^ 64 = (size + 65535) % 2 ^ 64 := by
    omega
  rw [e]
  exact and_page_mask _ (Nat.mod_lt _ (by decide))

/-- Without wrap-around the computed size is the usual round-up quotient formula. -/
theorem buf_size_small (size : Nat) (h : size ≤ 2 ^ 64 - 65536) :
    buf_size size = (size + 65535) / 65536 * 65536 := by
  rw [buf_size_eq, Nat.mod_eq_of_lt (by omega)]

/-- Above the last page boundary the sum wraps and the computed size is zero. -/
theorem buf_size_wrap (size : Nat) (h : size < 2 ^ 64) (hbig : 2 ^ 64 - 65536 < size) :
    buf_size size = 0 := by
  rw [buf_size_eq]
  have e : (size + 65535) % 2 ^ 64 = size + 65535 - 2 ^ 64 := by omega
  rw [e]
  have : (size + 65535 - 2 ^ 64) / 65536 = 0 := Nat.div_eq_of_lt (by omega)
  rw [this]

/-! ## Claims on the size computation -/

/-- C1 (as amended): for every 64-bit requested size the byte count handed to the allocator
is a multiple of 65536; it is at least the requested size whenever
`size ≤ 2^64 - 65536`, and it is 0 for the larger sizes, where the sum wraps. -/
theorem buf_size_page_multiple (size : Nat) (h : size < 2 ^ 64) :
    (65536 : Nat) ∣ buf_size size ∧
    (size ≤ 2 ^ 64 - 65536 → size ≤ buf_size size) ∧
    (2 ^ 64 - 65536 < size → buf_size size = 0) := by
  refine ⟨?_, ?_, ?_⟩
  · rw [buf_size_eq]
    exact Dvd.intro_left _ rfl
  · intro hs
    rw [buf_size_small size hs]
    omega
  · intro hbig
    exact buf_size_wrap size h hbig

/-- Witness of C1 (as amended) at the size 100000. -/
theorem buf_size_page_multiple_witness :
    (65536 : Nat) ∣ buf_size 100000 ∧
    ((100000 : Nat) ≤ 2 ^ 64 - 65536 → 100000 ≤ buf_size 100000) ∧
    (2 ^ 64 - 65536 < (100000 : Nat) → buf_size 100000 = 0) :=
  buf_size_page_multiple 100000 (by decide)

/-- C1 fails as stated: the 64-bit size `2^64 - 1` yields the byte count 0, which is
smaller than the requested size. -/
theorem buf_size_below_request :
    (2 ^ 64 - 1 : Nat) < 2 ^ 64 ∧ buf_size (2 ^ 64 - 1) = 0 ∧
    ¬ ((2 ^ 64 - 1 : Nat) ≤ buf_size (2 ^ 64 - 1)) := by
  decide

/-- C9: for `a ≤ 2^64 - 65536` the byte count is `65536 * ceil(a / 65536)`, the least
multiple of 65536 that is at least `a`; it lies in `[a, a + 65536)`, a multiple of 65536
is left unchanged, rounding twice is rounding once, and rounding is monotone. -/
theorem buf_size_round_up (a b : Nat) (hab : a ≤ b) (hb : b ≤ 2 ^ 64 - 65536) :
    buf_size a = 65536 * ((a + 65535) / 65536) ∧
    ((65536 : Nat) ∣ buf_size a ∧ a ≤ buf_size a ∧
      ∀ m : Nat, 65536 ∣ m → a ≤ m → buf_size a ≤ m) ∧
    (a ≤ buf_size a ∧ buf_size a < a + 65536) ∧
    ((65536 : Nat) ∣ a → buf_size a = a) ∧
    buf_size 0 = 0 ∧
    buf_size (buf_size a) = buf_size a ∧
    buf_size a ≤ buf_size b := by
  have ha : a ≤ 2 ^ 64 - 65536 := le_trans hab hb
  have ea := buf_size_small a ha
  have eb := buf_size_small b hb
  have hdiv : (65536 : Nat) ∣ buf_size a := by rw [ea]; exact Dvd.intro_left _ rfl
  have hle : a ≤ buf_size a := by rw [ea]; omega
  have hlt : buf_size a < a + 65536 := by rw [ea]; omega
  have hfix : ∀ x : Nat, x ≤ 2 ^ 64 - 65536 → 65536 ∣ x → buf_size x = x := by
    intro x hx hd
    rw [buf_size_small x hx]
    obtain ⟨q, rfl⟩ := hd
    omega
  have hbound : buf_size a ≤ 2 ^ 64 - 65536 := by
    rw [ea]
    have : (a + 65535) / 65536 ≤ (2 ^ 64 - 65536 + 65535) / 65536 :=
      Nat.div_le_div_right (by omega)
    omega
  refine ⟨by rw [ea, Nat.mul_comm], ⟨hdiv, hle, ?_⟩, ⟨hle, hlt⟩, hfix a ha, by decide,
    hfix _ hbound hdiv, ?_⟩
  · intro m hm ham
    obtain ⟨q, rfl⟩ := hm
    rw [ea]
    omega
  · rw [ea, eb]
    have : (a + 65535) / 65536 ≤ (b + 65535) / 65536 := Nat.div_le_div_right (by omega)
    omega

/-- Witness of C9 at the sizes 1 and 65537. -/
theorem buf_size_round_up_witness :
    buf_size 1 = 65536 * ((1 + 65535) / 65536) ∧
    ((65536 : Nat) ∣ buf_size 1 ∧ 1 ≤ buf_size 1 ∧
      ∀ m : Nat, 65536 ∣ m → 1 ≤ m → buf_size 1 ≤ m) ∧
    (1 ≤ buf_size 1 ∧ buf_size 1 < 1 + 65536) ∧
    ((65536 : Nat) ∣ 1 → buf_size 1 = 1) ∧
    buf_size 0 = 0 ∧
    buf_size (buf_size 1) = buf_size 1 ∧
    buf_size 1 ≤ buf_size 65537 :=
  buf_size_round_up 1 65537 (by decide) (by decide)

/-! ## Lemmas on running code -/

@[simp] theorem bind_run {σ α β : Type} (p : Prog σ α) (f : α → Prog σ β) :
    (p >>= f) = Prog.bind p f := rfl

@[simp] theorem pure_run {σ α : Type} (a : α) : (pure a : Prog σ α) = Prog.pure a := rfl

@[simp] theorem run_pure {σ α : Type} (a : α) (s : σ) :
    Prog.pure a s = ⟨Outcome.ret a, s, []⟩ := rfl

@[simp] theorem run_ite {σ α : Type} (c : Prop) [Decidable c] (p q : Prog σ α) (s : σ) :
    (if c then p else q) s = if c then p s else q s := by
  split <;> rfl

/-- The result `r` with the events `es` placed before its own. -/
def Result.after {σ α : Type} (es : List Event) (r : Result σ α) : Result σ α :=
  ⟨r.out, r.vendor, es ++ r.trace⟩

@[simp] theorem after_out {σ α : Type} (es : List Event) (r : Result σ α) :
    (r.after es).out = r.out := rfl

@[simp] theorem after_vendor {σ α : Type} (es : List Event) (r : Result σ α) :
    (r.after es).vendor = r.vendor := rfl

@[simp] theorem after_trace {σ α : Type} (es : List Event) (r : Result σ α) :
    (r.after es).trace = es ++ r.trace := rfl

@[simp] theorem after_ite {σ α : Type} (c : Prop) [Decidable c] (es : List Event)
    (x y : Result σ α) :
    (if c then x else y).after es = if c then x.after es else y.after es := by
  split <;> rfl

@[simp] theorem ite_out {σ α : Type} (c : Prop) [Decidable c] (x y : Result σ α) :
    (if c then x else y).out = if c then x.out else y.out := by
  split <;> rfl

@[simp] theorem ite_trace {σ α : Type} (c : Prop) [Decidable c] (x y : Result σ α) :
    (if c then x else y).trace = if c then x.trace else y.trace := by
  split <;> rfl

@[simp] theorem run_emit_bind {σ β : Type} (e : Event) (f : Unit → Prog σ β) (s : σ) :
    Prog.bind (emit e) f s = (f () s).after [e] := rfl

@[simp] theorem run_printf_bind {σ β : Type} (fmt : String) (args : List Arg)
    (f : Unit → Prog σ β) (s : σ) :
    Prog.bind (printf fmt args) f s = (f () s).after [Event.print Stream.stdout fmt args] := rfl

@[simp] theorem run_fprintf_bind {σ β : Type} (fmt : String) (args : List Arg)
    (f : Unit → Prog σ β) (s : σ) :
    Prog.bind (fprintf_stderr fmt args) f s =
      (f () s).after [Event.print Stream.stderr fmt args] := rfl

@[simp] theorem run_vcall_bind {σ β γ : Type} (fn : VendorFn) (ins : List Arg)
    (g : σ → (Int × β) × σ) (outs : β → List Arg) (f : Int × β → Prog σ γ) (s : σ) :
    Prog.bind (vcall fn ins g outs) f s =
      (f (g s).1 (g s).2).after [Event.call fn ins (g s).1.1 (outs (g s).1.2)] := rfl

@[simp] theorem run_getpid_bind {σ β : Type} (rt : Runtime σ) (f : Int → Prog σ β) (s : σ) :
    Prog.bind (getpid rt) f s = f (rt.getpid s) s := by
  simp [Prog.bind, getpid]

/-- The events `ASSERT(CN_SUCCESS == res)` leaves when it does not end the process. -/
def assert_events (k : Headers) (res : Int) : List Event :=
  if k.CN_SUCCESS = res then [] else [Event.assert_failed]

theorem run_cucheck_bind {σ β γ : Type} (k : Headers) (fn : VendorFn) (ins : List Arg)
    (g : σ → (Int × β) × σ) (outs : β → List Arg) (f : β → Prog σ γ) (s : σ) :
    Prog.bind (CUCHECK k (vcall fn ins g outs)) f s =
      if k.CN_SUCCESS ≠ (g s).1.1 ∧ k.assert_aborts = true then
        ⟨Outcome.aborted, (g s).2,
          [Event.call fn ins (g s).1.1 (outs (g s).1.2), Event.assert_failed]⟩
      else
        (f (g s).1.2 (g s).2).after
          (Event.call fn ins (g s).1.1 (outs (g s).1.2) :: assert_events k (g s).1.1) := by
  by_cases h : k.CN_SUCCESS = (g s).1.1
  · simp [CUCHECK, ASSERT, Prog.bind, vcall, h, Result.after, assert_events]
  · cases ha : k.assert_aborts <;>
      simp [CUCHECK, ASSERT, Prog.bind, vcall, h, ha, emit, abort, Result.after, assert_events]

@[simp] theorem records_of_assert_events (p : VendorFn → Bool) (k : Headers) (res : Int) :
    records_of p (assert_events k res) = [] := by
  unfold assert_events
  split <;> rfl

@[simp] theorem calls_of_assert_events (p : VendorFn → Bool) (k : Headers) (res : Int) :
    calls_of p (assert_events k res) = [] := by
  unfold assert_events
  split <;> rfl

theorem bind_of_ret {σ α β : Type} (p : Prog σ α) (f : α → Prog σ β) (s : σ) (a : α)
    (h : (p s).out = Outcome.ret a) :
    Prog.bind p f s = (f a (p s).vendor).after (p s).trace := by
  simp [Prog.bind, h, Result.after]

theorem bind_of_aborted {σ α β : Type} (p : Prog σ α) (f : α → Prog σ β) (s : σ)
    (h : (p s).out = Outcome.aborted) :
    Prog.bind p f s = ⟨Outcome.aborted, (p s).vendor, (p s).trace⟩ := by
  simp [Prog.bind, h]

/-! ## Claims on allocation and release -/

/-- The allocator calls of a run of `mlu_memory_allocate_buffer`. -/
theorem allocate_allocator_calls {σ : Type} (k : Headers) (rt : Runtime σ)
    (ctx : mlu_memory_ctx) (alignment : Int) (size : Nat) (mem : alloc_out) (s : σ) :
    calls_of is_allocator (mlu_memory_allocate_buffer k rt ctx alignment size mem s).trace =
      [(if (read_integrated rt ctx.cnDevice s).1.2 = 1
          then VendorFn.cnMallocHost else VendorFn.cnMalloc,
        [Arg.nat (buf_size size)])] := by
  simp only [mlu_memory_allocate_buffer, bind_run, pure_run, run_pure, run_ite, run_printf_bind,
    run_vcall_bind, cnDeviceGetAttribute, cnMallocHost, cnMalloc, read_integrated]
  split_ifs <;> simp [calls_of, is_allocator]

/-- C2: for every context and size, `mlu_memory_allocate_buffer` makes exactly one allocator
call, with the rounded size: `cnMallocHost` if the integrated attribute reads 1, and
`cnMalloc` for any other value. -/
theorem allocate_one_allocator_call {σ : Type} (k : Headers) (rt : Runtime σ)
    (ctx : mlu_memory_ctx) (alignment : Int) (size : Nat) (mem : alloc_out) (s : σ) :
    calls_of is_allocator (mlu_memory_allocate_buffer k rt ctx alignment size mem s).trace =
      [(if (read_integrated rt ctx.cnDevice s).1.2 = 1
          then VendorFn.cnMallocHost else VendorFn.cnMalloc,
        [Arg.nat (buf_size size)])] :=
  allocate_allocator_calls k rt ctx alignment size mem s

/-- C3: `mlu_memory_allocate_buffer` always returns, with `FAILURE` exactly when the selected
allocator returned a code other than `CN_SUCCESS` and with `SUCCESS` otherwise. On `SUCCESS`
`*can_init` is false and, in the discrete branch, `*addr` is the address `cnMalloc` produced;
on `FAILURE` in the discrete branch `*addr` and `*can_init` are unchanged. -/
theorem allocate_return_code {σ : Type} (k : Headers) (rt : Runtime σ)
    (ctx : mlu_memory_ctx) (alignment : Int) (size : Nat) (mem : alloc_out) (s : σ)
    (hne : k.SUCCESS ≠ k.FAILURE) :
    ∃ code ctx1 mem1,
      (mlu_memory_allocate_buffer k rt ctx alignment size mem s).out =
        Outcome.ret (code, ctx1, mem1) ∧
      (code = k.FAILURE ↔ (selected_allocator rt ctx.cnDevice size s).1.1 ≠ k.CN_SUCCESS) ∧
      (code = k.SUCCESS ↔ (selected_allocator rt ctx.cnDevice size s).1.1 = k.CN_SUCCESS) ∧
      (code = k.SUCCESS → mem1.can_init = false) ∧
      ((read_integrated rt ctx.cnDevice s).1.2 ≠ 1 → code = k.SUCCESS →
        mem1.addr = (rt.cnMalloc (buf_size size) (read_integrated rt ctx.cnDevice s).2).1.2) ∧
      ((read_integrated rt ctx.cnDevice s).1.2 ≠ 1 → code = k.FAILURE →
        mem1.addr = mem.addr ∧ mem1.can_init = mem.can_init) := by
  have hne2 : k.FAILURE ≠ k.SUCCESS := fun h => hne h.symm
  simp only [mlu_memory_allocate_buffer, bind_run, pure_run, run_pure, run_ite, run_printf_bind,
    run_vcall_bind, cnDeviceGetAttribute, cnMallocHost, cnMalloc, read_integrated,
    selected_allocator]
  split_ifs <;> refine ⟨_, _, _, rfl, ?_⟩ <;> simp_all

/-- Witness of C3: a discrete device whose allocator succeeds with address 7. -/
theorem allocate_return_code_witness :
    ∃ code ctx1 mem1,
      (mlu_memory_allocate_buffer (headers 0 true) (const_runtime 1 0 7) ctx0 0 100
        ⟨1, 2, 3, true⟩ ()).out = Outcome.ret (code, ctx1, mem1) ∧
      (code = (headers 0 true).FAILURE ↔
        (selected_allocator (const_runtime 1 0 7) ctx0.cnDevice 100 ()).1.1 ≠
          (headers 0 true).CN_SUCCESS) ∧
      (code = (headers 0 true).SUCCESS ↔
        (selected_allocator (const_runtime 1 0 7) ctx0.cnDevice 100 ()).1.1 =
          (headers 0 true).CN_SUCCESS) ∧
      (code = (headers 0 true).SUCCESS → mem1.can_init = false) ∧
      ((read_integrated (const_runtime 1 0 7) ctx0.cnDevice ()).1.2 ≠ 1 →
        code = (headers 0 true).SUCCESS →
        mem1.addr = ((const_runtime 1 0 7).cnMalloc (buf_size 100)
          (read_integrated (const_runtime 1 0 7) ctx0.cnDevice ()).2).1.2) ∧
      ((read_integrated (const_runtime 1 0 7) ctx0.cnDevice ()).1.2 ≠ 1 →
        code = (headers 0 true).FAILURE →
        mem1.addr = (⟨1, 2, 3, true⟩ : alloc_out).addr ∧
          mem1.can_init = (⟨1, 2, 3, true⟩ : alloc_out).can_init) :=
  allocate_return_code (headers 0 true) (const_runtime 1 0 7) ctx0 0 100 ⟨1, 2, 3, true⟩ ()
    (by decide)

/-- C8: `mlu_memory_dmabuf_supported` is false with and without `HAVE_MLU_DMABUF`,
`mlu_memory_supported` is true, and `mlu_memory_allocate_buffer` returns for every input
with `*dmabuf_fd` and `*dmabuf_offset` as they were on entry, whatever `use_dmabuf` the
context was created with. -/
theorem dmabuf_disabled {σ : Type} (k : Headers) (rt : Runtime σ)
    (ctx : mlu_memory_ctx) (alignment : Int) (size : Nat) (mem : alloc_out) (s : σ) :
    mlu_memory_dmabuf_supported k = false ∧
    mlu_memory_dmabuf_supported { k with HAVE_MLU_DMABUF := true } = false ∧
    mlu_memory_dmabuf_supported { k with HAVE_MLU_DMABUF := false } = false ∧
    mlu_memory_supported = true ∧
    ∃ code ctx1 mem1,
      (mlu_memory_allocate_buffer k rt ctx alignment size mem s).out =
        Outcome.ret (code, ctx1, mem1) ∧
      mem1.dmabuf_fd = mem.dmabuf_fd ∧ mem1.dmabuf_offset = mem.dmabuf_offset := by
  refine ⟨by simp [mlu_memory_dmabuf_supported], by simp [mlu_memory_dmabuf_supported],
    by simp [mlu_memory_dmabuf_supported], rfl, ?_⟩
  simp only [mlu_memory_allocate_buffer, bind_run, pure_run, run_pure, run_ite, run_printf_bind,
    run_vcall_bind, cnDeviceGetAttribute, cnMallocHost, cnMalloc]
  split_ifs <;> exact ⟨_, _, _, rfl, rfl, rfl⟩

/-- C10: `mlu_memory_free_buffer` returns `SUCCESS` for every input, whatever the release
call answers, and its result does not depend on `dmabuf_fd` or `size`. It makes exactly one
release call, on the address it was given: `cnFreeHost` when the integrated attribute reads
1 and `cnFree` otherwise, the same test as the one by which `mlu_memory_allocate_buffer`
picks `cnMallocHost` or `cnMalloc`; so when the attribute reads the same value `v` at both
times, a buffer from `cnMallocHost` goes to `cnFreeHost` and one from `cnMalloc` to `cnFree`. -/
theorem free_matches_allocate {σ : Type} (k : Headers) (rt : Runtime σ)
    (ctx : mlu_memory_ctx) (alignment : Int) (size : Nat) (mem : alloc_out) (s0 : σ)
    (dmabuf_fd : Int) (addr : Nat) (size1 : Nat) (s1 : σ) :
    (mlu_memory_free_buffer k rt ctx dmabuf_fd addr size1 s1).out = Outcome.ret k.SUCCESS ∧
    calls_of is_release (mlu_memory_free_buffer k rt ctx dmabuf_fd addr size1 s1).trace =
      [(if (read_integrated rt ctx.cnDevice s1).1.2 = 1
          then VendorFn.cnFreeHost else VendorFn.cnFree, [Arg.nat addr])] ∧
    (∀ (fd2 : Int) (size2 : Nat),
      mlu_memory_free_buffer k rt ctx fd2 addr size2 s1 =
        mlu_memory_free_buffer k rt ctx dmabuf_fd addr size1 s1) ∧
    (∀ v : Int, (read_integrated rt ctx.cnDevice s0).1.2 = v →
      (read_integrated rt ctx.cnDevice s1).1.2 = v →
      ∀ code ctx1 mem1,
        (mlu_memory_allocate_buffer k rt ctx alignment size mem s0).out =
          Outcome.ret (code, ctx1, mem1) →
        (v = 1 →
          calls_of is_allocator (mlu_memory_allocate_buffer k rt ctx alignment size mem s0).trace
            = [(VendorFn.cnMallocHost, [Arg.nat (buf_size size)])] ∧
          calls_of is_release (mlu_memory_free_buffer k rt ctx1 dmabuf_fd mem1.addr size1 s1).trace
            = [(VendorFn.cnFreeHost, [Arg.nat mem1.addr])]) ∧
        (v ≠ 1 →
          calls_of is_allocator (mlu_memory_allocate_buffer k rt ctx alignment size mem s0).trace
            = [(VendorFn.cnMalloc, [Arg.nat (buf_size size)])] ∧
          calls_of is_release (mlu_memory_free_buffer k rt ctx1 dmabuf_fd mem1.addr size1 s1).trace
            = [(VendorFn.cnFree, [Arg.nat mem1.addr])])) := by
  have hfree : ∀ (c : mlu_memory_ctx) (a : Nat),
      calls_of is_release (mlu_memory_free_buffer k rt c dmabuf_fd a size1 s1).trace =
        [(if (read_integrated rt c.cnDevice s1).1.2 = 1
            then VendorFn.cnFreeHost else VendorFn.cnFree, [Arg.nat a])] := by
    intro c a
    simp only [mlu_memory_free_buffer, bind_run, pure_run, run_pure, run_ite, run_printf_bind,
      run_vcall_bind, cnDeviceGetAttribute, cnFreeHost, cnFree, read_integrated]
    split_ifs <;> simp [calls_of, is_release]
  have hdev : ∀ code ctx1 mem1,
      (mlu_memory_allocate_buffer k rt ctx alignment size mem s0).out =
        Outcome.ret (code, ctx1, mem1) → ctx1.cnDevice = ctx.cnDevice := by
    intro code ctx1 mem1
    simp only [mlu_memory_allocate_buffer, bind_run, pure_run, run_pure, run_ite, run_printf_bind,
      run_vcall_bind, cnDeviceGetAttribute, cnMallocHost, cnMalloc]
    split_ifs <;> simp <;> intro _ h _ <;> rw [← h]
  refine ⟨?_, hfree ctx addr, ?_, ?_⟩
  · simp only [mlu_memory_free_buffer, bind_run, pure_run, run_pure, run_ite, run_printf_bind,
      run_vcall_bind, cnDeviceGetAttribute, cnFreeHost, cnFree]
    split_ifs <;> rfl
  · intro fd2 size2
    rfl
  · intro v h0 h1 code ctx1 mem1 hout
    have hd := hdev code ctx1 mem1 hout
    have ha := allocate_allocator_calls k rt ctx alignment size mem s0
    have hf := hfree ctx1 mem1.addr
    rw [hd, h1] at hf
    rw [h0] at ha
    constructor
    · intro hv
      rw [if_pos hv] at ha hf
      exact ⟨ha, hf⟩
    · intro hv
      rw [if_neg hv] at ha hf
      exact ⟨ha, hf⟩

/-- Witness of C10: an integrated device (the attribute reads 1 at both times), whose buffer
comes from `cnMallocHost` at address 7 and goes back through `cnFreeHost` on address 7. -/
theorem free_matches_allocate_witness :
    calls_of is_allocator (mlu_memory_allocate_buffer (headers 0 false) (const_runtime 1 1 7)
        ctx0 0 100 ⟨1, 2, 3, true⟩ ()).trace =
      [(VendorFn.cnMallocHost, [Arg.nat (buf_size 100)])] ∧
    calls_of is_release (mlu_memory_free_buffer (headers 0 false) (const_runtime 1 1 7)
        ctx0 0 (⟨1, 2, 7, false⟩ : alloc_out).addr 100 ()).trace =
      [(VendorFn.cnFreeHost, [Arg.nat (⟨1, 2, 7, false⟩ : alloc_out).addr])] :=
  ((free_matches_allocate (headers 0 false) (const_runtime 1 1 7) ctx0 0 100 ⟨1, 2, 3, true⟩ ()
    0 7 100 ()).2.2.2 1 rfl rfl 0 ctx0 ⟨1, 2, 7, false⟩ rfl).1 rfl

/-! ## Lemmas on initialisation -/

theorem records_of_append (p : VendorFn → Bool) (a b : List Event) :
    records_of p (a ++ b) = records_of p a ++ records_of p b := by
  induction a with
  | nil => rfl
  | cons e t ih =>
    cases e with
    | call fn ins res outs =>
      by_cases h : p fn <;> simp [records_of, h, ih]
    | print st fmt args => simpa [records_of] using ih
    | assert_failed => simpa [records_of] using ih

theorem calls_of_append (p : VendorFn → Bool) (a b : List Event) :
    calls_of p (a ++ b) = calls_of p a ++ calls_of p b := by
  induction a with
  | nil => rfl
  | cons e t ih =>
    cases e with
    | call fn ins res outs =>
      by_cases h : p fn <;> simp [calls_of, h, ih]
    | print st fmt args => simpa [calls_of] using ih
    | assert_failed => simpa [calls_of] using ih

/-- The listing loop calls `cnDeviceGet` and `cnDeviceGetAttribute` only. -/
theorem list_devices_records {σ : Type} (k : Headers) (rt : Runtime σ) (p : VendorFn → Bool)
    (h1 : p VendorFn.cnDeviceGet = false) (h2 : p VendorFn.cnDeviceGetAttribute = false)
    (n : Nat) : ∀ (i : Int) (s : σ), records_of p (list_devices k rt n i s).trace = [] := by
  induction n with
  | zero => intro i s; rfl
  | succ n ih =>
    intro i s
    simp only [list_devices, bind_run, pure_run, cnDeviceGet, cnDeviceGetAttribute,
      run_cucheck_bind, run_vcall_bind, run_printf_bind]
    split_ifs <;> simp [records_of, records_of_append, h1, h2, ih]


/-- What a run of `init_gpu` guarantees: a failed decisive step or a device count of 0 means
`FAILURE`; a return is `FAILURE` or `SUCCESS`, and on `SUCCESS` the context was created on the
device obtained for `ctx.device_id` and then made current; the bus lookup is never called. -/
theorem init_gpu_spec {σ : Type} (k : Headers) (rt : Runtime σ) (ctx : mlu_memory_ctx)
    (s : σ) :
    (∀ r ∈ records_of is_init_step (init_gpu k rt ctx s).trace, r.res ≠ k.CN_SUCCESS →
      ∃ c, (init_gpu k rt ctx s).out = Outcome.ret (k.FAILURE, c)) ∧
    (∀ r ∈ records_of is_get_count (init_gpu k rt ctx s).trace, r.outs = [Arg.int 0] →
      ∃ c, (init_gpu k rt ctx s).out = Outcome.ret (k.FAILURE, c)) ∧
    (∀ code c, (init_gpu k rt ctx s).out = Outcome.ret (code, c) →
      code = k.FAILURE ∨
      (code = k.SUCCESS ∧ c.device_id = ctx.device_id ∧
        records_of is_ctx_call (init_gpu k rt ctx s).trace =
          [⟨VendorFn.cnCtxCreate, [Arg.int k.CN_CTX_MAP_HOST, Arg.int c.cnDevice], k.CN_SUCCESS,
              [Arg.nat c.cnContext]⟩,
            ⟨VendorFn.cnCtxSetCurrent, [Arg.nat c.cnContext], k.CN_SUCCESS, []⟩] ∧
        ∃ res, (records_of is_device_get (init_gpu k rt ctx s).trace).getLast? =
          some ⟨VendorFn.cnDeviceGet, [Arg.int ctx.device_id], res, [Arg.int c.cnDevice]⟩)) ∧
    records_of is_bus_lookup (init_gpu k rt ctx s).trace = [] := by
  have hrec := fun p h1 h2 => list_devices_records k rt p h1 h2
    (rt.cnDeviceGetCount (rt.cnInit 0 s).2).1.2.toNat 0 (rt.cnDeviceGetCount (rt.cnInit 0 s).2).2
  have hr1 := hrec is_init_step rfl rfl
  have hr2 := hrec is_get_count rfl rfl
  have hr3 := hrec is_ctx_call rfl rfl
  have hr4 := hrec is_bus_lookup rfl rfl
  clear hrec
  cases hL : (list_devices k rt (rt.cnDeviceGetCount (rt.cnInit 0 s).2).1.2.toNat 0
      (rt.cnDeviceGetCount (rt.cnInit 0 s).2).2).out with
  | aborted =>
    simp only [init_gpu, bind_run, pure_run, cnInit, cnDeviceGetCount, run_vcall_bind,
      run_printf_bind, run_fprintf_bind, run_ite, run_pure, bind_of_aborted _ _ _ hL]
    generalize (list_devices k rt (rt.cnDeviceGetCount (rt.cnInit 0 s).2).1.2.toNat 0
      (rt.cnDeviceGetCount (rt.cnInit 0 s).2).2) = L at *
    generalize rt.cnDeviceGetCount (rt.cnInit 0 s).2 = a2 at *
    generalize rt.cnInit 0 s = a1 at *
    by_cases h1 : a1.1.1 = k.CN_SUCCESS
    swap
    · simp [h1, records_of, is_init_step, is_get_count, is_ctx_call, is_bus_lookup]
    simp only [h1, ne_eq, not_true_eq_false, if_false]
    by_cases h2 : a2.1.1 = k.CN_SUCCESS
    swap
    · simp [h2, records_of, is_init_step, is_get_count, is_ctx_call, is_bus_lookup]
    simp only [h2, ne_eq, not_true_eq_false, if_false]
    by_cases h3 : a2.1.2 = 0
    · simp [h3, records_of, is_init_step, is_get_count, is_ctx_call, is_bus_lookup]
    simp only [h3, if_false]
    by_cases h4 : k.cn_device_id ≥ a2.1.2
    · simp [h4, records_of, is_init_step, is_get_count, is_ctx_call, is_bus_lookup, h3]
    simp only [h4, if_false]
    simp [records_of, is_init_step, is_get_count, is_ctx_call, is_bus_lookup, records_of_append,
      hr1, hr2, hr3, hr4, h3]
  | ret u =>
    simp only [init_gpu, bind_run, pure_run, cnInit, cnDeviceGetCount, cnDeviceGet, cnDeviceGetName,
      cnCtxCreate, cnCtxSetCurrent, run_vcall_bind, run_cucheck_bind, run_getpid_bind,
      run_printf_bind, run_fprintf_bind, run_ite, run_pure, bind_of_ret _ _ _ _ hL]
    generalize (list_devices k rt (rt.cnDeviceGetCount (rt.cnInit 0 s).2).1.2.toNat 0
      (rt.cnDeviceGetCount (rt.cnInit 0 s).2).2) = L at *
    generalize rt.cnDeviceGetCount (rt.cnInit 0 s).2 = a2 at *
    generalize rt.cnInit 0 s = a1 at *
    generalize rt.cnDeviceGet ctx.device_id L.vendor = a3 at *
    generalize rt.cnDeviceGetName 128 ctx.device_id a3.2 = a4 at *
    generalize rt.cnCtxCreate k.CN_CTX_MAP_HOST a3.1.2 a4.2 = a5 at *
    generalize rt.cnCtxSetCurrent a5.1.2 a5.2 = a6 at *
    by_cases h1 : a1.1.1 = k.CN_SUCCESS
    swap
    · simp [h1, records_of, is_init_step, is_get_count, is_ctx_call, is_bus_lookup]
    simp only [h1, ne_eq, not_true_eq_false, if_false]
    by_cases h2 : a2.1.1 = k.CN_SUCCESS
    swap
    · simp [h2, records_of, is_init_step, is_get_count, is_ctx_call, is_bus_lookup]
    simp only [h2, ne_eq, not_true_eq_false, if_false]
    by_cases h3 : a2.1.2 = 0
    · simp [h3, records_of, is_init_step, is_get_count, is_ctx_call, is_bus_lookup]
    simp only [h3, if_false]
    by_cases h4 : k.cn_device_id ≥ a2.1.2
    · simp [h4, records_of, is_init_step, is_get_count, is_ctx_call, is_bus_lookup, h3]
    simp only [h4, if_false]
    by_cases h5 : k.CN_SUCCESS ≠ a3.1.1 ∧ k.assert_aborts = true
    · simp [h5, records_of, is_init_step, is_get_count, is_ctx_call, is_bus_lookup,
        records_of_append, hr1, hr2, hr3, hr4, h3]
    simp only [h5, if_false]
    by_cases h6 : k.CN_SUCCESS ≠ a4.1.1 ∧ k.assert_aborts = true
    · simp [h6, records_of, is_init_step, is_get_count, is_ctx_call, is_bus_lookup,
        records_of_append, hr1, hr2, hr3, hr4, h3]
    simp only [h6, if_false]
    by_cases h7 : a5.1.1 = k.CN_SUCCESS
    swap
    · simp [h7, records_of, is_init_step, is_get_count, is_ctx_call, is_bus_lookup,
        records_of_append, hr1, hr2, hr3, hr4, h3]
    simp only [h7, ne_eq, not_true_eq_false, if_false]
    by_cases h8 : a6.1.1 = k.CN_SUCCESS
    swap
    · simp [h8, records_of, is_init_step, is_get_count, is_ctx_call, is_bus_lookup,
        records_of_append, hr1, hr2, hr3, hr4, h3]
    simp [h8, records_of, is_init_step, is_get_count, is_ctx_call, is_bus_lookup, is_device_get,
      records_of_append, hr1, hr2, hr3, hr4, h3]


/-- The events of the bus-id block up to and including the lookup. -/
def bus_lookup_events (b : String) (init_res lookup_res dev : Int) : List Event :=
  [Event.print Stream.stdout "initializing MLU\n" [],
    Event.call VendorFn.cnInit [Arg.int 0] init_res [],
    Event.print Stream.stdout "Finding PCIe BUS %s\n" [Arg.str b],
    Event.call VendorFn.cnDeviceGetByPCIBusId [Arg.str b] lookup_res [Arg.int dev]]

/-- A run of `mlu_memory_init` on a context without bus id is the part from `init_gpu` on. -/
theorem init_run_none {σ : Type} (k : Headers) (rt : Runtime σ) (ctx : mlu_memory_ctx) (s : σ)
    (h : ctx.device_bus_id = none) :
    mlu_memory_init k rt ctx s = mlu_memory_init_rest k rt ctx s := by
  simp [mlu_memory_init, h]

/-- A run of `mlu_memory_init` on a context with bus id `b`. -/
theorem init_run_some {σ : Type} (k : Headers) (rt : Runtime σ) (ctx : mlu_memory_ctx) (s : σ)
    (b : String) (h : ctx.device_bus_id = some b) :
    mlu_memory_init k rt ctx s =
      if (rt.cnInit 0 s).1.1 ≠ k.CN_SUCCESS then
        ⟨Outcome.ret (k.FAILURE, ctx), (rt.cnInit 0 s).2,
          [Event.print Stream.stdout "initializing MLU\n" [],
            Event.call VendorFn.cnInit [Arg.int 0] (rt.cnInit 0 s).1.1 [],
            Event.print Stream.stdout "cnInit(0) returned %d\n" [Arg.int (rt.cnInit 0 s).1.1]]⟩
      else if (rt.cnDeviceGetByPCIBusId b (rt.cnInit 0 s).2).1.1 ≠ 0 then
        ⟨Outcome.ret (k.FAILURE,
            { ctx with device_id := (rt.cnDeviceGetByPCIBusId b (rt.cnInit 0 s).2).1.2 }),
          (rt.cnDeviceGetByPCIBusId b (rt.cnInit 0 s).2).2,
          bus_lookup_events b (rt.cnInit 0 s).1.1 (rt.cnDeviceGetByPCIBusId b (rt.cnInit 0 s).2).1.1
              (rt.cnDeviceGetByPCIBusId b (rt.cnInit 0 s).2).1.2 ++
            [Event.print Stream.stderr
              "cnDeviceGetByPCIBusId failed with error: %d; Failed to get PCI Bus ID (%s)\n"
              [Arg.int (rt.cnDeviceGetByPCIBusId b (rt.cnInit 0 s).2).1.1, Arg.str b]]⟩
      else
        (mlu_memory_init_rest k rt
            { ctx with device_id := (rt.cnDeviceGetByPCIBusId b (rt.cnInit 0 s).2).1.2 }
            (rt.cnDeviceGetByPCIBusId b (rt.cnInit 0 s).2).2).after
          (bus_lookup_events b (rt.cnInit 0 s).1.1 (rt.cnDeviceGetByPCIBusId b (rt.cnInit 0 s).2).1.1
              (rt.cnDeviceGetByPCIBusId b (rt.cnInit 0 s).2).1.2 ++
            [Event.print Stream.stdout "Picking GPU number %d\n"
              [Arg.int (rt.cnDeviceGetByPCIBusId b (rt.cnInit 0 s).2).1.2]]) := by
  have hb : mlu_memory_init_bus k rt ctx b s =
      if (rt.cnInit 0 s).1.1 ≠ k.CN_SUCCESS then
        ⟨Outcome.ret (some k.FAILURE, ctx), (rt.cnInit 0 s).2,
          [Event.print Stream.stdout "initializing MLU\n" [],
            Event.call VendorFn.cnInit [Arg.int 0] (rt.cnInit 0 s).1.1 [],
            Event.print Stream.stdout "cnInit(0) returned %d\n" [Arg.int (rt.cnInit 0 s).1.1]]⟩
      else if (rt.cnDeviceGetByPCIBusId b (rt.cnInit 0 s).2).1.1 ≠ 0 then
        ⟨Outcome.ret (some k.FAILURE,
            { ctx with device_id := (rt.cnDeviceGetByPCIBusId b (rt.cnInit 0 s).2).1.2 }),
          (rt.cnDeviceGetByPCIBusId b (rt.cnInit 0 s).2).2,
          bus_lookup_events b (rt.cnInit 0 s).1.1 (rt.cnDeviceGetByPCIBusId b (rt.cnInit 0 s).2).1.1
              (rt.cnDeviceGetByPCIBusId b (rt.cnInit 0 s).2).1.2 ++
            [Event.print Stream.stderr
              "cnDeviceGetByPCIBusId failed with error: %d; Failed to get PCI Bus ID (%s)\n"
              [Arg.int (rt.cnDeviceGetByPCIBusId b (rt.cnInit 0 s).2).1.1, Arg.str b]]⟩
      else
        ⟨Outcome.ret (none,
            { ctx with device_id := (rt.cnDeviceGetByPCIBusId b (rt.cnInit 0 s).2).1.2 }),
          (rt.cnDeviceGetByPCIBusId b (rt.cnInit 0 s).2).2,
          bus_lookup_events b (rt.cnInit 0 s).1.1 (rt.cnDeviceGetByPCIBusId b (rt.cnInit 0 s).2).1.1
              (rt.cnDeviceGetByPCIBusId b (rt.cnInit 0 s).2).1.2 ++
            [Event.print Stream.stdout "Picking GPU number %d\n"
              [Arg.int (rt.cnDeviceGetByPCIBusId b (rt.cnInit 0 s).2).1.2]]⟩ := by
    simp only [mlu_memory_init_bus, bind_run, pure_run, cnInit, cnDeviceGetByPCIBusId,
      run_vcall_bind, run_printf_bind, run_fprintf_bind, run_ite, run_pure]
    split_ifs <;> rfl
  simp only [mlu_memory_init, h, bind_run, pure_run]
  by_cases h1 : (rt.cnInit 0 s).1.1 ≠ k.CN_SUCCESS
  · rw [if_pos h1] at hb ⊢
    rw [bind_of_ret _ _ s _ (by rw [hb]), hb]
    rfl
  · rw [if_neg h1] at hb ⊢
    by_cases h2 : (rt.cnDeviceGetByPCIBusId b (rt.cnInit 0 s).2).1.1 ≠ 0
    · rw [if_pos h2] at hb ⊢
      rw [bind_of_ret _ _ s _ (by rw [hb]), hb]
      simp [Result.after, h]
    · rw [if_neg h2] at hb ⊢
      rw [bind_of_ret _ _ s _ (by rw [hb]), hb]
      simp [h]

/-- How the part of `mlu_memory_init` from `init_gpu` on ends, given how `init_gpu` ends. -/
theorem init_rest_run {σ : Type} (k : Headers) (rt : Runtime σ) (ctx : mlu_memory_ctx) (s : σ) :
    mlu_memory_init_rest k rt ctx s =
      match (init_gpu k rt ctx s).out with
      | Outcome.aborted =>
        ⟨Outcome.aborted, (init_gpu k rt ctx s).vendor, (init_gpu k rt ctx s).trace⟩
      | Outcome.ret (code, c) =>
        if code ≠ 0 then
          ⟨Outcome.ret (k.FAILURE, c), (init_gpu k rt ctx s).vendor,
            (init_gpu k rt ctx s).trace ++
              [Event.print Stream.stderr "Couldn\x27t init GPU context: %d\n" [Arg.int code]]⟩
        else
          ⟨Outcome.ret (k.SUCCESS,
              if k.HAVE_MLU_DMABUF then { c with use_dmabuf := false } else c),
            (init_gpu k rt ctx s).vendor, (init_gpu k rt ctx s).trace⟩ := by
  cases hI : (init_gpu k rt ctx s).out with
  | aborted => simp [mlu_memory_init_rest, bind_of_aborted _ _ _ hI]
  | ret a =>
    obtain ⟨code, c⟩ := a
    simp only [mlu_memory_init_rest, bind_run, pure_run, bind_of_ret _ _ _ _ hI, run_ite,
      run_fprintf_bind, run_pure]
    split_ifs <;> simp [Result.after]


/-- What a run of the part of `mlu_memory_init` from `init_gpu` on guarantees. -/
theorem init_rest_spec {σ : Type} (k : Headers) (rt : Runtime σ) (ctx : mlu_memory_ctx)
    (s : σ) (h0 : k.FAILURE ≠ 0) (hne : k.SUCCESS ≠ k.FAILURE) :
    (∀ r ∈ records_of is_init_step (mlu_memory_init_rest k rt ctx s).trace,
      r.res ≠ k.CN_SUCCESS →
      ∃ c, (mlu_memory_init_rest k rt ctx s).out = Outcome.ret (k.FAILURE, c)) ∧
    (∀ r ∈ records_of is_get_count (mlu_memory_init_rest k rt ctx s).trace,
      r.outs = [Arg.int 0] →
      ∃ c, (mlu_memory_init_rest k rt ctx s).out = Outcome.ret (k.FAILURE, c)) ∧
    (∀ c, (mlu_memory_init_rest k rt ctx s).out = Outcome.ret (k.SUCCESS, c) →
      c.device_id = ctx.device_id ∧
      records_of is_ctx_call (mlu_memory_init_rest k rt ctx s).trace =
        [⟨VendorFn.cnCtxCreate, [Arg.int k.CN_CTX_MAP_HOST, Arg.int c.cnDevice], k.CN_SUCCESS,
            [Arg.nat c.cnContext]⟩,
          ⟨VendorFn.cnCtxSetCurrent, [Arg.nat c.cnContext], k.CN_SUCCESS, []⟩] ∧
      ∃ res, (records_of is_device_get (mlu_memory_init_rest k rt ctx s).trace).getLast? =
        some ⟨VendorFn.cnDeviceGet, [Arg.int ctx.device_id], res, [Arg.int c.cnDevice]⟩) ∧
    records_of is_bus_lookup (mlu_memory_init_rest k rt ctx s).trace = [] := by
  obtain ⟨hA, hB, hC, hD⟩ := init_gpu_spec k rt ctx s
  rw [init_rest_run]
  cases hI : (init_gpu k rt ctx s).out with
  | aborted =>
    rw [hI] at hA hB
    refine ⟨?_, ?_, ?_, hD⟩
    · intro r hr hres
      obtain ⟨c, hc⟩ := hA r hr hres
      cases hc
    · intro r hr hres
      obtain ⟨c, hc⟩ := hB r hr hres
      cases hc
    · intro c hc
      cases hc
  | ret a =>
    obtain ⟨code, c⟩ := a
    rw [hI] at hA hB
    have hne2 : k.FAILURE ≠ k.SUCCESS := fun h => hne h.symm
    by_cases hz : code ≠ 0
    · simp only [if_pos hz]
      refine ⟨fun _ _ _ => ⟨_, rfl⟩, fun _ _ _ => ⟨_, rfl⟩, ?_, ?_⟩
      · intro c1 hc1
        simp [hne2] at hc1
      · rw [records_of_append, hD]
        rfl
    · simp only [if_neg hz]
      rcases hC code c hI with hf | ⟨hs, hdev, hctx, hget⟩
      · exact absurd (hf ▸ not_not.mp hz) h0
      · refine ⟨?_, ?_, ?_, hD⟩
        · intro r hr hres
          obtain ⟨c1, hc1⟩ := hA r hr hres
          simp [hs, hne] at hc1
        · intro r hr hres
          obtain ⟨c1, hc1⟩ := hB r hr hres
          simp [hs, hne] at hc1
        · intro c1 hc1
          simp only [Outcome.ret.injEq, Prod.mk.injEq, true_and] at hc1
          subst hc1
          split_ifs <;> exact ⟨hdev, hctx, hget⟩

/-- The part of `mlu_memory_init` from `init_gpu` on starts with the run of `init_gpu` and
never calls the bus lookup. -/
theorem init_rest_trace {σ : Type} (k : Headers) (rt : Runtime σ) (ctx : mlu_memory_ctx)
    (s : σ) :
    records_of is_bus_lookup (mlu_memory_init_rest k rt ctx s).trace = [] ∧
    ∃ tail, (mlu_memory_init_rest k rt ctx s).trace = (init_gpu k rt ctx s).trace ++ tail := by
  obtain ⟨_, _, _, hD⟩ := init_gpu_spec k rt ctx s
  rw [init_rest_run]
  cases hI : (init_gpu k rt ctx s).out with
  | aborted => exact ⟨hD, [], by simp⟩
  | ret a =>
    obtain ⟨code, c⟩ := a
    by_cases hz : code ≠ 0
    · simp only [if_pos hz]
      refine ⟨?_, _, rfl⟩
      rw [records_of_append, hD]
      rfl
    · simp only [if_neg hz]
      exact ⟨hD, [], by simp⟩

/-- The range check of `init_gpu` as the code has it: once `cnInit` and `cnDeviceGetCount`
succeeded with a non-zero count, a value of `cn_device_id` that is at least the count gives
`FAILURE` with the diagnostic, after these two calls only. -/
theorem init_gpu_range_check_on_cn_device_id {σ : Type} (k : Headers) (rt : Runtime σ)
    (ctx : mlu_memory_ctx) (s : σ)
    (h1 : (rt.cnInit 0 s).1.1 = k.CN_SUCCESS)
    (h2 : (rt.cnDeviceGetCount (rt.cnInit 0 s).2).1.1 = k.CN_SUCCESS)
    (h3 : (rt.cnDeviceGetCount (rt.cnInit 0 s).2).1.2 ≠ 0)
    (h4 : k.cn_device_id ≥ (rt.cnDeviceGetCount (rt.cnInit 0 s).2).1.2) :
    init_gpu k rt ctx s =
      ⟨Outcome.ret (k.FAILURE, ctx), (rt.cnDeviceGetCount (rt.cnInit 0 s).2).2,
        [Event.print Stream.stdout "initializing MLU\n" [],
          Event.call VendorFn.cnInit [Arg.int 0] (rt.cnInit 0 s).1.1 [],
          Event.call VendorFn.cnDeviceGetCount [] (rt.cnDeviceGetCount (rt.cnInit 0 s).2).1.1
            [Arg.int (rt.cnDeviceGetCount (rt.cnInit 0 s).2).1.2],
          Event.print Stream.stderr "No such device ID (%d) exists in system\n"
            [Arg.int k.cn_device_id]]⟩ := by
  simp only [init_gpu, bind_run, pure_run, cnInit, cnDeviceGetCount, run_vcall_bind,
    run_printf_bind, run_fprintf_bind, run_ite, run_pure]
  rw [if_neg (not_not.mpr h1), if_neg (not_not.mpr h2), if_neg h3, if_pos h4]
  rfl

/-! ## Claims on initialisation -/

/-- C6: `mlu_memory_init` returns `SUCCESS` only if `cnCtxCreate` succeeded on the device
obtained for the selected index and `cnCtxSetCurrent` then succeeded on the created context,
these being the only context calls and in that order; if a call of `cnInit`,
`cnDeviceGetCount`, `cnCtxCreate` or `cnCtxSetCurrent` returned a code other than
`CN_SUCCESS`, or the device count read 0, it returns `FAILURE`; and every non-zero result of
`init_gpu` is turned into `FAILURE`. -/
theorem init_success_needs_current_context {σ : Type} (k : Headers) (rt : Runtime σ)
    (ctx : mlu_memory_ctx) (s : σ) (h0 : k.FAILURE ≠ 0) (hne : k.SUCCESS ≠ k.FAILURE) :
    (∀ c, (mlu_memory_init k rt ctx s).out = Outcome.ret (k.SUCCESS, c) →
      records_of is_ctx_call (mlu_memory_init k rt ctx s).trace =
        [⟨VendorFn.cnCtxCreate, [Arg.int k.CN_CTX_MAP_HOST, Arg.int c.cnDevice], k.CN_SUCCESS,
            [Arg.nat c.cnContext]⟩,
          ⟨VendorFn.cnCtxSetCurrent, [Arg.nat c.cnContext], k.CN_SUCCESS, []⟩] ∧
      ∃ res, (records_of is_device_get (mlu_memory_init k rt ctx s).trace).getLast? =
        some ⟨VendorFn.cnDeviceGet, [Arg.int c.device_id], res, [Arg.int c.cnDevice]⟩) ∧
    (∀ r ∈ records_of is_init_step (mlu_memory_init k rt ctx s).trace,
      r.res ≠ k.CN_SUCCESS →
      ∃ c, (mlu_memory_init k rt ctx s).out = Outcome.ret (k.FAILURE, c)) ∧
    (∀ r ∈ records_of is_get_count (mlu_memory_init k rt ctx s).trace,
      r.outs = [Arg.int 0] →
      ∃ c, (mlu_memory_init k rt ctx s).out = Outcome.ret (k.FAILURE, c)) ∧
    (∀ (c0 : mlu_memory_ctx) (s0 : σ) (code : Int) (c : mlu_memory_ctx),
      (init_gpu k rt c0 s0).out = Outcome.ret (code, c) → code ≠ 0 →
      (mlu_memory_init_rest k rt c0 s0).out = Outcome.ret (k.FAILURE, c)) := by
  have hmap : ∀ (c0 : mlu_memory_ctx) (s0 : σ) (code : Int) (c : mlu_memory_ctx),
      (init_gpu k rt c0 s0).out = Outcome.ret (code, c) → code ≠ 0 →
      (mlu_memory_init_rest k rt c0 s0).out = Outcome.ret (k.FAILURE, c) := by
    intro c0 s0 code c hI hz
    rw [init_rest_run, hI]
    simp [hz]
  cases hbus : ctx.device_bus_id with
  | none =>
    rw [init_run_none k rt ctx s hbus]
    obtain ⟨hA, hB, hC, _⟩ := init_rest_spec k rt ctx s h0 hne
    refine ⟨?_, hA, hB, hmap⟩
    intro c hc
    obtain ⟨hdev, hctx, hget⟩ := hC c hc
    rw [hdev]
    exact ⟨hctx, hget⟩
  | some b =>
    rw [init_run_some k rt ctx s b hbus]
    by_cases h1 : (rt.cnInit 0 s).1.1 ≠ k.CN_SUCCESS
    · rw [if_pos h1]
      have hne2 : k.FAILURE ≠ k.SUCCESS := fun h => hne h.symm
      refine ⟨?_, fun _ _ _ => ⟨_, rfl⟩, fun _ _ _ => ⟨_, rfl⟩, hmap⟩
      intro c hc
      simp [hne2] at hc
    · rw [if_neg h1]
      by_cases h2 : (rt.cnDeviceGetByPCIBusId b (rt.cnInit 0 s).2).1.1 ≠ 0
      · rw [if_pos h2]
        have hne2 : k.FAILURE ≠ k.SUCCESS := fun h => hne h.symm
        refine ⟨?_, fun _ _ _ => ⟨_, rfl⟩, fun _ _ _ => ⟨_, rfl⟩, hmap⟩
        intro c hc
        simp [hne2] at hc
      · rw [if_neg h2]
        obtain ⟨hA, hB, hC, _⟩ := init_rest_spec k rt
          { ctx with device_id := (rt.cnDeviceGetByPCIBusId b (rt.cnInit 0 s).2).1.2 }
          (rt.cnDeviceGetByPCIBusId b (rt.cnInit 0 s).2).2 h0 hne
        have h1e : (rt.cnInit 0 s).1.1 = k.CN_SUCCESS := not_not.mp h1
        simp only [after_out, after_trace, records_of_append]
        refine ⟨?_, ?_, ?_, hmap⟩
        · intro c hc
          obtain ⟨hdev, hctx, hget⟩ := hC c hc
          rw [hdev]
          simpa [bus_lookup_events, records_of, is_ctx_call, is_device_get] using And.intro hctx hget
        · intro r hr hres
          simp only [bus_lookup_events, records_of, is_init_step, List.mem_append] at hr
          simp at hr
          rcases hr with hr | hr
          · rw [hr] at hres
            exact absurd h1e hres
          · exact hA r hr hres
        · intro r hr hres
          simp only [bus_lookup_events, records_of, is_get_count, List.mem_append] at hr
          simp at hr
          exact hB r hr hres


/-- Witness of C6: with `SUCCESS` 0 and `FAILURE` 1, one device and every call succeeding,
`mlu_memory_init` returns `SUCCESS` after creating context 7 on device 0 and making it
current. -/
theorem init_success_needs_current_context_witness :
    (headers 0 false).FAILURE ≠ 0 ∧ (headers 0 false).SUCCESS ≠ (headers 0 false).FAILURE ∧
    (mlu_memory_init (headers 0 false) (const_runtime 1 0 7) ctx0 ()).out =
      Outcome.ret ((headers 0 false).SUCCESS, { ctx0 with cnContext := 7 }) ∧
    records_of is_ctx_call (mlu_memory_init (headers 0 false) (const_runtime 1 0 7) ctx0 ()).trace =
      [⟨VendorFn.cnCtxCreate, [Arg.int 0, Arg.int 0], 0, [Arg.nat 7]⟩,
        ⟨VendorFn.cnCtxSetCurrent, [Arg.nat 7], 0, []⟩] :=
  ⟨by decide, by decide, rfl,
    ((init_success_needs_current_context (headers 0 false) (const_runtime 1 0 7) ctx0 ()
      (by decide) (by decide)).1 { ctx0 with cnContext := 7 } rfl).1⟩

/-- C5: a context made by `mlu_memory_create` carries `params->mlu_device_id` and
`params->mlu_device_bus_id`. Without bus id, `mlu_memory_init` never calls the lookup and runs
`init_gpu` on that context, hence with that index. With bus id `b` it calls `cnInit` and then
`cnDeviceGetByPCIBusId` for `b`: if `cnInit` fails it returns `FAILURE` after that one call,
if the lookup fails it returns `FAILURE` after these two calls, and otherwise `init_gpu` runs
on the context whose `device_id` is the index the lookup returned. -/
theorem init_device_selection {σ : Type} (k : Headers) (rt : Runtime σ)
    (params : perftest_parameters) (fresh : mlu_memory_ctx) (s : σ) :
    (mlu_memory_create params fresh).device_id = params.mlu_device_id ∧
    (mlu_memory_create params fresh).device_bus_id = params.mlu_device_bus_id ∧
    (params.mlu_device_bus_id = none →
      records_of is_bus_lookup
        (mlu_memory_init k rt (mlu_memory_create params fresh) s).trace = [] ∧
      ∃ tail, (mlu_memory_init k rt (mlu_memory_create params fresh) s).trace =
        (init_gpu k rt (mlu_memory_create params fresh) s).trace ++ tail) ∧
    (∀ b, params.mlu_device_bus_id = some b →
      ((rt.cnInit 0 s).1.1 ≠ k.CN_SUCCESS →
        (mlu_memory_init k rt (mlu_memory_create params fresh) s).out =
          Outcome.ret (k.FAILURE, mlu_memory_create params fresh) ∧
        records_of any_call (mlu_memory_init k rt (mlu_memory_create params fresh) s).trace =
          [⟨VendorFn.cnInit, [Arg.int 0], (rt.cnInit 0 s).1.1, []⟩]) ∧
      ((rt.cnInit 0 s).1.1 = k.CN_SUCCESS →
        (rt.cnDeviceGetByPCIBusId b (rt.cnInit 0 s).2).1.1 ≠ 0 →
        (mlu_memory_init k rt (mlu_memory_create params fresh) s).out =
          Outcome.ret (k.FAILURE, { mlu_memory_create params fresh with
            device_id := (rt.cnDeviceGetByPCIBusId b (rt.cnInit 0 s).2).1.2 }) ∧
        records_of any_call (mlu_memory_init k rt (mlu_memory_create params fresh) s).trace =
          [⟨VendorFn.cnInit, [Arg.int 0], (rt.cnInit 0 s).1.1, []⟩,
            ⟨VendorFn.cnDeviceGetByPCIBusId, [Arg.str b],
              (rt.cnDeviceGetByPCIBusId b (rt.cnInit 0 s).2).1.1,
              [Arg.int (rt.cnDeviceGetByPCIBusId b (rt.cnInit 0 s).2).1.2]⟩]) ∧
      ((rt.cnInit 0 s).1.1 = k.CN_SUCCESS →
        (rt.cnDeviceGetByPCIBusId b (rt.cnInit 0 s).2).1.1 = 0 →
        ∃ tail, (mlu_memory_init k rt (mlu_memory_create params fresh) s).trace =
          bus_lookup_events b (rt.cnInit 0 s).1.1 (rt.cnDeviceGetByPCIBusId b (rt.cnInit 0 s).2).1.1
              (rt.cnDeviceGetByPCIBusId b (rt.cnInit 0 s).2).1.2 ++
            [Event.print Stream.stdout "Picking GPU number %d\n"
              [Arg.int (rt.cnDeviceGetByPCIBusId b (rt.cnInit 0 s).2).1.2]] ++
            (init_gpu k rt { mlu_memory_create params fresh with
                device_id := (rt.cnDeviceGetByPCIBusId b (rt.cnInit 0 s).2).1.2 }
              (rt.cnDeviceGetByPCIBusId b (rt.cnInit 0 s).2).2).trace ++ tail)) := by
  refine ⟨rfl, rfl, ?_, ?_⟩
  · intro hnone
    rw [init_run_none k rt _ s (by simpa [mlu_memory_create] using hnone)]
    exact init_rest_trace k rt _ s
  · intro b hb
    rw [init_run_some k rt _ s b (by simpa [mlu_memory_create] using hb)]
    refine ⟨?_, ?_, ?_⟩
    · intro h1
      rw [if_pos h1]
      exact ⟨rfl, by simp [records_of, any_call]⟩
    · intro h1 h2
      rw [if_neg (not_not.mpr h1), if_pos h2]
      exact ⟨rfl, by simp [records_of, any_call, bus_lookup_events]⟩
    · intro h1 h2
      rw [if_neg (not_not.mpr h1), if_neg (not_not.mpr h2)]
      obtain ⟨_, tail, ht⟩ := init_rest_trace k rt
        { mlu_memory_create params fresh with
          device_id := (rt.cnDeviceGetByPCIBusId b (rt.cnInit 0 s).2).1.2 }
        (rt.cnDeviceGetByPCIBusId b (rt.cnInit 0 s).2).2
      refine ⟨tail, ?_⟩
      rw [after_trace, ht]
      simp

/-- Witness of C5: a context created without bus id and index 3, and one created with the
bus id `0000:01:00.0`, on a runtime whose `cnInit` and lookup succeed, the lookup returning
index 0. -/
theorem init_device_selection_witness :
    (records_of is_bus_lookup
        (mlu_memory_init (headers 0 false) (const_runtime 4 0 7)
          (mlu_memory_create ⟨3, none, false⟩ ctx0) ()).trace = [] ∧
      ∃ tail, (mlu_memory_init (headers 0 false) (const_runtime 4 0 7)
          (mlu_memory_create ⟨3, none, false⟩ ctx0) ()).trace =
        (init_gpu (headers 0 false) (const_runtime 4 0 7)
          (mlu_memory_create ⟨3, none, false⟩ ctx0) ()).trace ++ tail) ∧
    ∃ tail, (mlu_memory_init (headers 0 false) (const_runtime 4 0 7)
        (mlu_memory_create ⟨3, some "0000:01:00.0", false⟩ ctx0) ()).trace =
      bus_lookup_events "0000:01:00.0" 0 0 0 ++
        [Event.print Stream.stdout "Picking GPU number %d\n" [Arg.int 0]] ++
        (init_gpu (headers 0 false) (const_runtime 4 0 7)
          { mlu_memory_create ⟨3, some "0000:01:00.0", false⟩ ctx0 with device_id := 0 } ()).trace
        ++ tail :=
  ⟨(init_device_selection (headers 0 false) (const_runtime 4 0 7) ⟨3, none, false⟩ ctx0
      ()).2.2.1 rfl,
    ((init_device_selection (headers 0 false) (const_runtime 4 0 7)
      ⟨3, some "0000:01:00.0", false⟩ ctx0 ()).2.2.2 "0000:01:00.0" rfl).2.2 rfl rfl⟩

/-- C4 on the code: with one device in the system, a context whose `device_id` is 5 and the
identifier `cn_device_id` of the range check holding 0, `init_gpu` passes the check, calls
`cnDeviceGet` on index 5, creates a context and returns `SUCCESS`. -/
theorem init_gpu_range_check_misses_device_id :
    ({ ctx0 with device_id := 5 } : mlu_memory_ctx).device_id ≥
      ((const_runtime 1 0 7).cnDeviceGetCount ()).1.2 ∧
    (init_gpu (headers 0 false) (const_runtime 1 0 7) { ctx0 with device_id := 5 } ()).out =
      Outcome.ret ((headers 0 false).SUCCESS,
        { ctx0 with device_id := 5, cnDevice := 5, cnContext := 7 }) ∧
    records_of is_device_get
        (init_gpu (headers 0 false) (const_runtime 1 0 7) { ctx0 with device_id := 5 } ()).trace =
      [⟨VendorFn.cnDeviceGet, [Arg.int 0], 0, [Arg.int 0]⟩,
        ⟨VendorFn.cnDeviceGet, [Arg.int 5], 0, [Arg.int 5]⟩] ∧
    records_of is_ctx_call
        (init_gpu (headers 0 false) (const_runtime 1 0 7) { ctx0 with device_id := 5 } ()).trace =
      [⟨VendorFn.cnCtxCreate, [Arg.int 0, Arg.int 5], 0, [Arg.nat 7]⟩,
        ⟨VendorFn.cnCtxSetCurrent, [Arg.nat 7], 0, []⟩] := by
  refine ⟨by decide, rfl, rfl, rfl⟩

/-! ## Claims on the copy entries -/

/-- C7: the three copy members installed by `mlu_memory_create` each make exactly one vendor
copy call, with the caller's `dest`, `src` and `size` unchanged, and return `dest` whatever
that call answers; `copy_host_to_buffer` and `copy_buffer_to_host` are the same function
`mlu_memory_copy_host_buffer`, which calls `cnMemcpy`, and `copy_buffer_to_buffer` is
`mlu_memory_copy_buffer_to_buffer`, which calls `cuMemcpyDtoD`. -/
theorem copy_entries_pass_through {σ : Type} (rt : Runtime σ) (params : perftest_parameters)
    (fresh : mlu_memory_ctx) (dest src size : Nat) (s : σ) :
    (mlu_memory_create params fresh).base.copy_host_to_buffer =
      CopyFn.mlu_memory_copy_host_buffer ∧
    (mlu_memory_create params fresh).base.copy_buffer_to_host =
      (mlu_memory_create params fresh).base.copy_host_to_buffer ∧
    (mlu_memory_create params fresh).base.copy_buffer_to_buffer =
      CopyFn.mlu_memory_copy_buffer_to_buffer ∧
    call_copy rt (mlu_memory_create params fresh).base.copy_host_to_buffer dest src size s =
      ⟨Outcome.ret dest, (rt.cnMemcpy dest src size s).2,
        [Event.call VendorFn.cnMemcpy [Arg.nat dest, Arg.nat src, Arg.nat size]
          (rt.cnMemcpy dest src size s).1.1 []]⟩ ∧
    call_copy rt (mlu_memory_create params fresh).base.copy_buffer_to_host dest src size s =
      ⟨Outcome.ret dest, (rt.cnMemcpy dest src size s).2,
        [Event.call VendorFn.cnMemcpy [Arg.nat dest, Arg.nat src, Arg.nat size]
          (rt.cnMemcpy dest src size s).1.1 []]⟩ ∧
    call_copy rt (mlu_memory_create params fresh).base.copy_buffer_to_buffer dest src size s =
      ⟨Outcome.ret dest, (rt.cuMemcpyDtoD dest src size s).2,
        [Event.call VendorFn.cuMemcpyDtoD [Arg.nat dest, Arg.nat src, Arg.nat size]
          (rt.cuMemcpyDtoD dest src size s).1.1 []]⟩ := by
  refine ⟨rfl, rfl, rfl, rfl, rfl, rfl⟩

end MluMemory
